import Mathlib

/-!
# go-tun2socks: the exported lwIP TCP callbacks

A shallow embedding of `core/tcp_callback_export.go`: the five functions the
lwIP stack calls back into (`TCPAcceptFn`, `TCPRecvFn`, `TCPSentFn`,
`TCPErrFn`, `TCPPollFn`).

Every callback is a function from its arguments, the registry `tcpConns` and
the results of the application calls to a `Run`: the ordered list of the
externally visible calls the callback itself makes (`pbuf_free`, `tcp_abort`,
the `Connection` methods, the log lines) together with the way the invocation
ends (a returned `err_t`, `log.Fatal`, or a Go run-time panic).
-/

namespace Tun2socks

/-- Go `error` values other than `nil`, as far as the callbacks look at them:
the dynamic type is either `*lwipError` (with its `Code` field) or something
else, on which the type assertion `err.(*lwipError)` panics. The interface
value `nil` is `none : Option GoError`. -/
inductive GoError where
  | lwipError (Code : Int)
  | other (msg : String)
deriving DecidableEq, Repr

/-- The C type `u16_t`. -/
abbrev U16 := Fin 65536

/-- A Go byte slice: its elements (`len` is the length of `data`) and its
capacity. -/
structure Slice where
  data : List Nat
  cap : Nat
deriving DecidableEq, Repr

/-- The fields of a `struct pbuf` the callbacks read, behind a non-nil
pointer `addr`. The pointer `p.payload` is `none` when it is NULL; otherwise
it is `some mem`, with `mem i` the byte stored at `p.payload + i`. -/
structure Pbuf where
  addr : Nat
  payload : Option (Nat → Nat)
  tot_len : U16
  len : U16

/-- The `Connection` interface as seen from the callbacks: for each method the
result it hands back when called. `Err` returns nothing. -/
structure Connection where
  LocalDidClose : Option GoError
  Receive : Slice → Option GoError
  Sent : U16 → Option GoError
  Poll : Option GoError

/-- The constants and the helper the file uses but does not declare: the lwIP
`err_t` values `ERR_OK`, `ERR_ABRT`, `ERR_RST`, the codes `LWIP_ERR_OK`,
`LWIP_ERR_ABRT` of `lwipError`, and `GetConnKeyVal`, which turns the callback
argument into a registry key. -/
structure Consts where
  ERR_OK : Int
  ERR_ABRT : Int
  ERR_RST : Int
  LWIP_ERR_OK : Int
  LWIP_ERR_ABRT : Int
  GetConnKeyVal : Nat → Nat

/-- The registry `tcpConns`: connection key to `Connection`. -/
abbrev Registry := List (Nat × Connection)

/-- The call `tcpConns.Load(key)`. -/
def Registry.Load (tcpConns : Registry) (key : Nat) : Option Connection :=
  List.lookup key tcpConns

/-- The calls a callback makes, in order. A pcb pointer is `none` for nil.
Log events carry the format string of the source line. -/
inductive Event where
  | log (format : String)
  | logFatal (format : String)
  | pbuf_free (p : Nat)
  | tcp_abort (pcb : Option Nat)
  | NewTCPConnection (pcb : Option Nat)
  | LocalDidClose (key : Nat)
  | Receive (key : Nat) (buf : Slice)
  | Sent (key : Nat) (len : U16)
  | Err (key : Nat) (cause : String)
  | Poll (key : Nat)
deriving DecidableEq, Repr

/-- How an invocation ends: it returns a status, `log.Fatal` exits the process
(deferred functions do not run), or the Go run time panics (deferred functions
run, then the process dies). -/
inductive Outcome where
  | ret (status : Int)
  | fatal
  | panic
deriving DecidableEq, Repr

/-- One invocation of a callback. -/
structure Run where
  trace : List Event
  out : Outcome
deriving DecidableEq, Repr

/-- The expression `err.(*lwipError).Code`: `none` when it panics (a nil
interface or another dynamic type). -/
def lwipCode : Option GoError → Option Int
  | some (GoError.lwipError c) => some c
  | _ => none

/-- The slice `(*[1 << 30]byte)(p.payload)[:int(p.tot_len):int(p.tot_len)]`:
`none` when the expression panics, which it does on a NULL `p.payload`
(slicing through a nil array pointer). A `u16_t` is below `1 << 30`, so the
bounds are always in range. -/
def Pbuf.view (p : Pbuf) : Option Slice :=
  match p.payload with
  | none => none
  | some mem => some ⟨(List.range p.tot_len.val).map mem, p.tot_len.val⟩

/-- The callback `TCPAcceptFn`. `NewTCPConnection` is the constructor of the
repository, which returns a connection or a non-nil error. The failure branch
reads `newpcb.local_ip` for its log line, which panics on a nil `newpcb`. -/
def TCPAcceptFn (K : Consts) (NewTCPConnection : Option Nat → Except GoError Connection)
    (_arg : Nat) (newpcb : Option Nat) (err : Int) : Run :=
  if err ≠ K.ERR_OK then
    ⟨[], Outcome.ret err⟩
  else
    match NewTCPConnection newpcb with
    | Except.error _ =>
      match newpcb with
      | none => ⟨[Event.NewTCPConnection newpcb], Outcome.panic⟩
      | some _ =>
        ⟨[Event.NewTCPConnection newpcb,
          Event.log "failed to create TCP connection %v:%v->%v:%v: %v"],
         Outcome.ret K.ERR_OK⟩
    | Except.ok _ =>
      ⟨[Event.NewTCPConnection newpcb, Event.log "created new TCP connection %v->%v"],
       Outcome.ret K.ERR_OK⟩

/-- Lines 70 to 89 of `TCPRecvFn`: the nil check of the pcb, the length check,
the view and the call of `Receive`. Reading `p.tot_len` through a nil `p`
panics, and so does the slice expression on a NULL `p.payload`. -/
def TCPRecvFn.data (K : Consts) (conn : Connection) (key : Nat)
    (tpcb : Option Nat) (p : Option Pbuf) : Run :=
  if tpcb = none then
    ⟨[Event.logFatal "tcp_recv pcb is nil"], Outcome.fatal⟩
  else
    match p with
    | none => ⟨[], Outcome.panic⟩
    | some b =>
      if b.tot_len ≠ b.len then
        ⟨[Event.logFatal "tcp_recv p.tot_len != p.len (%v != %v)"], Outcome.fatal⟩
      else
        match b.view with
        | none => ⟨[], Outcome.panic⟩
        | some buf =>
          let handlerErr := conn.Receive buf
          if handlerErr ≠ none then
            ⟨[Event.Receive key buf, Event.log "receive data failed: %v", Event.tcp_abort tpcb],
             Outcome.ret K.ERR_ABRT⟩
          else
            ⟨[Event.Receive key buf], Outcome.ret K.ERR_OK⟩

/-- Lines 52 to 89 of `TCPRecvFn`: everything after the `defer` statement. -/
def TCPRecvFn.body (K : Consts) (tcpConns : Registry) (arg : Nat)
    (tpcb : Option Nat) (p : Option Pbuf) : Run :=
  match tcpConns.Load (K.GetConnKeyVal arg) with
  | none =>
    ⟨[Event.log "connection does not exists", Event.tcp_abort tpcb], Outcome.ret K.ERR_ABRT⟩
  | some conn =>
    match p with
    | none =>
      match lwipCode conn.LocalDidClose with
      | none => ⟨[Event.LocalDidClose (K.GetConnKeyVal arg)], Outcome.panic⟩
      | some code =>
        if code = K.LWIP_ERR_ABRT then
          ⟨[Event.LocalDidClose (K.GetConnKeyVal arg)], Outcome.ret K.ERR_ABRT⟩
        else if code = K.LWIP_ERR_OK then
          ⟨[Event.LocalDidClose (K.GetConnKeyVal arg)], Outcome.ret K.ERR_OK⟩
        else
          let r := TCPRecvFn.data K conn (K.GetConnKeyVal arg) tpcb p
          ⟨Event.LocalDidClose (K.GetConnKeyVal arg) :: r.trace, r.out⟩
    | some _ => TCPRecvFn.data K conn (K.GetConnKeyVal arg) tpcb p

/-- The deferred function of `TCPRecvFn`: `if p != nil then C.pbuf_free(p)`.
It runs when the body returns or panics, not after `log.Fatal`. -/
def TCPRecvFn.deferred (p : Option Pbuf) (r : Run) : Run :=
  match r.out with
  | Outcome.fatal => r
  | _ =>
    match p with
    | none => r
    | some b => ⟨r.trace ++ [Event.pbuf_free b.addr], r.out⟩

/-- The callback `TCPRecvFn`. -/
def TCPRecvFn (K : Consts) (tcpConns : Registry) (arg : Nat)
    (tpcb : Option Nat) (p : Option Pbuf) (err : Int) : Run :=
  if err ≠ K.ERR_OK ∧ err ≠ K.ERR_ABRT then
    ⟨[Event.log "receving data failed with lwip error code: %v"], Outcome.ret err⟩
  else
    TCPRecvFn.deferred p (TCPRecvFn.body K tcpConns arg tpcb p)

/-- The callback `TCPSentFn`. -/
def TCPSentFn (K : Consts) (tcpConns : Registry) (arg : Nat)
    (tpcb : Option Nat) (len : U16) : Run :=
  match tcpConns.Load (K.GetConnKeyVal arg) with
  | some conn =>
    match lwipCode (conn.Sent len) with
    | none => ⟨[Event.Sent (K.GetConnKeyVal arg) len], Outcome.panic⟩
    | some code =>
      if code = K.LWIP_ERR_ABRT then
        ⟨[Event.Sent (K.GetConnKeyVal arg) len], Outcome.ret K.ERR_ABRT⟩
      else
        ⟨[Event.Sent (K.GetConnKeyVal arg) len], Outcome.ret K.ERR_OK⟩
  | none =>
    ⟨[Event.log "connection does not exists", Event.tcp_abort tpcb], Outcome.ret K.ERR_ABRT⟩

/-- The callback `TCPErrFn`, which returns nothing: the calls it makes. -/
def TCPErrFn (K : Consts) (tcpConns : Registry) (arg : Nat) (err : Int) : List Event :=
  match tcpConns.Load (K.GetConnKeyVal arg) with
  | some _ =>
    if err = K.ERR_ABRT then
      [Event.Err (K.GetConnKeyVal arg) "connection aborted"]
    else if err = K.ERR_RST then
      [Event.Err (K.GetConnKeyVal arg) "connection reseted"]
    else
      [Event.Err (K.GetConnKeyVal arg) ("lwip error code " ++ toString err)]
  | none => []

/-- The callback `TCPPollFn`. -/
def TCPPollFn (K : Consts) (tcpConns : Registry) (arg : Nat) (_tpcb : Option Nat) : Run :=
  match tcpConns.Load (K.GetConnKeyVal arg) with
  | some conn =>
    match lwipCode conn.Poll with
    | none => ⟨[Event.Poll (K.GetConnKeyVal arg)], Outcome.panic⟩
    | some code =>
      if code = K.LWIP_ERR_ABRT then
        ⟨[Event.Poll (K.GetConnKeyVal arg)], Outcome.ret K.ERR_ABRT⟩
      else if code = K.LWIP_ERR_OK then
        ⟨[Event.Poll (K.GetConnKeyVal arg)], Outcome.ret K.ERR_OK⟩
      else
        ⟨[Event.Poll (K.GetConnKeyVal arg)], Outcome.ret K.ERR_OK⟩
  | none => ⟨[], Outcome.ret K.ERR_OK⟩

/-! ## Observations on a trace -/

/-- A call of `pbuf_free`. -/
def Event.isPbufFree : Event → Bool
  | Event.pbuf_free _ => true
  | _ => false

/-- A call of `tcp_abort`. -/
def Event.isTcpAbort : Event → Bool
  | Event.tcp_abort _ => true
  | _ => false

/-- A call of `LocalDidClose`. -/
def Event.isLocalDidClose : Event → Bool
  | Event.LocalDidClose _ => true
  | _ => false

/-- A call of `Receive`. -/
def Event.isReceive : Event → Bool
  | Event.Receive _ _ => true
  | _ => false

/-- A call of any of the `Connection` methods `LocalDidClose`, `Receive`,
`Sent`, `Err`, `Poll`. -/
def Event.isConnCall : Event → Bool
  | Event.LocalDidClose _ => true
  | Event.Receive _ _ => true
  | Event.Sent _ _ => true
  | Event.Err _ _ => true
  | Event.Poll _ => true
  | _ => false

/-- The calls of `pbuf_free` in a trace. -/
def frees (t : List Event) : List Event := t.filter Event.isPbufFree

/-- The calls of `tcp_abort` in a trace. -/
def aborts (t : List Event) : List Event := t.filter Event.isTcpAbort

/-- The calls of `Connection` methods in a trace. -/
def connCalls (t : List Event) : List Event := t.filter Event.isConnCall

/-- The calls of `LocalDidClose` in a trace. -/
def closes (t : List Event) : List Event := t.filter Event.isLocalDidClose

/-- The calls of `Receive` in a trace. -/
def receives (t : List Event) : List Event := t.filter Event.isReceive

/-! ## Sample data -/

/-- The lwIP values of the status constants (`err.h`), codes 0 and 1 for
`LWIP_ERR_OK` and `LWIP_ERR_ABRT`, and the argument itself as the key. -/
def lwip : Consts := ⟨0, -13, -14, 0, 1, fun arg => arg⟩

/-- A connection whose handlers all succeed. -/
def okConn : Connection :=
  ⟨some (GoError.lwipError 0), fun _ => none, fun _ => some (GoError.lwipError 0),
   some (GoError.lwipError 0)⟩

/-- A connection whose handlers all report the abort code, with `Receive`
failing. -/
def abrtConn : Connection :=
  ⟨some (GoError.lwipError 1), fun _ => some (GoError.other "closed"),
   fun _ => some (GoError.lwipError 1), some (GoError.lwipError 1)⟩

/-- A connection whose handlers report a failure code that is neither
`LWIP_ERR_OK` nor `LWIP_ERR_ABRT`. -/
def connErrConn : Connection :=
  ⟨some (GoError.lwipError 2), fun _ => some (GoError.other "closed"),
   fun _ => some (GoError.lwipError 2), some (GoError.lwipError 2)⟩

/-- The bytes of `GET / HTTP/1.1\r\n\r\n`. -/
def getBytes : List Nat := [71, 69, 84, 32, 47, 32, 72, 84, 84, 80, 47, 49, 46, 49, 13, 10, 13, 10]

/-- A single-segment pbuf holding the 18 request bytes. -/
def getReq : Pbuf := ⟨4096, some (fun i => getBytes.getD i 0), 18, 18⟩

/-- The head of a chain: 18 bytes in all, 10 of them in this segment. -/
def chained : Pbuf := ⟨8192, some (fun i => getBytes.getD i 0), 18, 10⟩

/-- An empty pbuf whose `payload` is NULL. -/
def nullPayload : Pbuf := ⟨12288, none, 0, 0⟩

/-- A constructor `NewTCPConnection` that succeeds. -/
def newConnOk : Option Nat → Except GoError Connection := fun _ => Except.ok okConn

/-- A constructor `NewTCPConnection` that fails. -/
def newConnFail : Option Nat → Except GoError Connection :=
  fun _ => Except.error (GoError.other "no handler")

/-! ## The shape of a run of `TCPRecvFn` -/

/-- A status other than `ERR_OK` and `ERR_ABRT` is logged and returned. -/
theorem recv_pass (K : Consts) (tcpConns : Registry) (arg : Nat) (tpcb : Option Nat)
    (p : Option Pbuf) (err : Int) (h1 : err ≠ K.ERR_OK) (h2 : err ≠ K.ERR_ABRT) :
    TCPRecvFn K tcpConns arg tpcb p err =
      ⟨[Event.log "receving data failed with lwip error code: %v"], Outcome.ret err⟩ := by
  simp [TCPRecvFn, h1, h2]

/-- With status `ERR_OK` or `ERR_ABRT` the callback runs its body under the
deferred free. -/
theorem recv_run (K : Consts) (tcpConns : Registry) (arg : Nat) (tpcb : Option Nat)
    (p : Option Pbuf) (err : Int) (h : err = K.ERR_OK ∨ err = K.ERR_ABRT) :
    TCPRecvFn K tcpConns arg tpcb p err =
      TCPRecvFn.deferred p (TCPRecvFn.body K tcpConns arg tpcb p) := by
  unfold TCPRecvFn
  rw [if_neg]
  intro h'
  rcases h with h | h
  · exact h'.1 h
  · exact h'.2 h

/-- The slice expression panics exactly on a NULL payload. -/
theorem view_eq_none_iff (b : Pbuf) : b.view = none ↔ b.payload = none := by
  unfold Pbuf.view
  cases b.payload <;> simp

/-- The view of a pbuf has length and capacity `tot_len` and holds the first
`tot_len` bytes behind the, non-NULL, payload pointer. -/
theorem view_spec (b : Pbuf) (buf : Slice) (h : b.view = some buf) :
    ∃ mem, b.payload = some mem ∧
      buf.data.length = b.tot_len.val ∧ buf.cap = b.tot_len.val ∧
      ∀ i, i < b.tot_len.val → buf.data[i]? = some (mem i) := by
  unfold Pbuf.view at h
  cases hp : b.payload with
  | none => simp [hp] at h
  | some mem =>
    simp [hp] at h
    subst h
    refine ⟨mem, rfl, by simp, rfl, fun i hi => ?_⟩
    simp [List.getElem?_map, List.getElem?_range hi]

/-- Every run of `TCPRecvFn` is one of thirteen: the status is passed through;
the lookup misses (with or without a pbuf); the close notification panics,
aborts, continues or falls through to the data path (fatal or panic); the data
path is fatal (nil pcb, chained pbuf), panics on a NULL payload, or `Receive`
fails or succeeds. -/
theorem recv_shape (K : Consts) (tcpConns : Registry) (arg : Nat) (tpcb : Option Nat)
    (p : Option Pbuf) (err : Int) :
    (TCPRecvFn K tcpConns arg tpcb p err =
        ⟨[Event.log "receving data failed with lwip error code: %v"], Outcome.ret err⟩ ∧
        err ≠ K.ERR_OK ∧ err ≠ K.ERR_ABRT) ∨
    (TCPRecvFn K tcpConns arg tpcb p err =
        ⟨[Event.log "connection does not exists", Event.tcp_abort tpcb], Outcome.ret K.ERR_ABRT⟩ ∧
        (err = K.ERR_OK ∨ err = K.ERR_ABRT) ∧ tcpConns.Load (K.GetConnKeyVal arg) = none ∧ p = none) ∨
    (∃ b, TCPRecvFn K tcpConns arg tpcb p err =
        ⟨[Event.log "connection does not exists", Event.tcp_abort tpcb, Event.pbuf_free b.addr],
          Outcome.ret K.ERR_ABRT⟩ ∧
        (err = K.ERR_OK ∨ err = K.ERR_ABRT) ∧ tcpConns.Load (K.GetConnKeyVal arg) = none ∧ p = some b) ∨
    (∃ conn, TCPRecvFn K tcpConns arg tpcb p err =
        ⟨[Event.LocalDidClose (K.GetConnKeyVal arg)], Outcome.panic⟩ ∧
        (err = K.ERR_OK ∨ err = K.ERR_ABRT) ∧ tcpConns.Load (K.GetConnKeyVal arg) = some conn ∧ p = none ∧
        lwipCode conn.LocalDidClose = none) ∨
    (∃ conn, TCPRecvFn K tcpConns arg tpcb p err =
        ⟨[Event.LocalDidClose (K.GetConnKeyVal arg)], Outcome.ret K.ERR_ABRT⟩ ∧
        (err = K.ERR_OK ∨ err = K.ERR_ABRT) ∧ tcpConns.Load (K.GetConnKeyVal arg) = some conn ∧ p = none ∧
        lwipCode conn.LocalDidClose = some K.LWIP_ERR_ABRT) ∨
    (∃ conn, TCPRecvFn K tcpConns arg tpcb p err =
        ⟨[Event.LocalDidClose (K.GetConnKeyVal arg)], Outcome.ret K.ERR_OK⟩ ∧
        (err = K.ERR_OK ∨ err = K.ERR_ABRT) ∧ tcpConns.Load (K.GetConnKeyVal arg) = some conn ∧ p = none ∧
        lwipCode conn.LocalDidClose = some K.LWIP_ERR_OK ∧ K.LWIP_ERR_OK ≠ K.LWIP_ERR_ABRT) ∨
    (∃ conn c, TCPRecvFn K tcpConns arg tpcb p err =
        ⟨[Event.LocalDidClose (K.GetConnKeyVal arg), Event.logFatal "tcp_recv pcb is nil"], Outcome.fatal⟩ ∧
        (err = K.ERR_OK ∨ err = K.ERR_ABRT) ∧ tcpConns.Load (K.GetConnKeyVal arg) = some conn ∧ p = none ∧
        lwipCode conn.LocalDidClose = some c ∧ c ≠ K.LWIP_ERR_ABRT ∧ c ≠ K.LWIP_ERR_OK ∧
        tpcb = none) ∨
    (∃ conn c pcb, TCPRecvFn K tcpConns arg tpcb p err =
        ⟨[Event.LocalDidClose (K.GetConnKeyVal arg)], Outcome.panic⟩ ∧
        (err = K.ERR_OK ∨ err = K.ERR_ABRT) ∧ tcpConns.Load (K.GetConnKeyVal arg) = some conn ∧ p = none ∧
        lwipCode conn.LocalDidClose = some c ∧ c ≠ K.LWIP_ERR_ABRT ∧ c ≠ K.LWIP_ERR_OK ∧
        tpcb = some pcb) ∨
    (∃ conn b, TCPRecvFn K tcpConns arg tpcb p err =
        ⟨[Event.logFatal "tcp_recv pcb is nil"], Outcome.fatal⟩ ∧
        (err = K.ERR_OK ∨ err = K.ERR_ABRT) ∧ tcpConns.Load (K.GetConnKeyVal arg) = some conn ∧ p = some b ∧
        tpcb = none) ∨
    (∃ conn b pcb, TCPRecvFn K tcpConns arg tpcb p err =
        ⟨[Event.logFatal "tcp_recv p.tot_len != p.len (%v != %v)"], Outcome.fatal⟩ ∧
        (err = K.ERR_OK ∨ err = K.ERR_ABRT) ∧ tcpConns.Load (K.GetConnKeyVal arg) = some conn ∧ p = some b ∧
        tpcb = some pcb ∧ b.tot_len ≠ b.len) ∨
    (∃ conn b pcb, TCPRecvFn K tcpConns arg tpcb p err =
        ⟨[Event.pbuf_free b.addr], Outcome.panic⟩ ∧
        (err = K.ERR_OK ∨ err = K.ERR_ABRT) ∧ tcpConns.Load (K.GetConnKeyVal arg) = some conn ∧ p = some b ∧
        tpcb = some pcb ∧ b.tot_len = b.len ∧ b.view = none) ∨
    (∃ conn b pcb buf, TCPRecvFn K tcpConns arg tpcb p err =
        ⟨[Event.Receive (K.GetConnKeyVal arg) buf, Event.log "receive data failed: %v",
           Event.tcp_abort tpcb, Event.pbuf_free b.addr], Outcome.ret K.ERR_ABRT⟩ ∧
        (err = K.ERR_OK ∨ err = K.ERR_ABRT) ∧ tcpConns.Load (K.GetConnKeyVal arg) = some conn ∧ p = some b ∧
        tpcb = some pcb ∧ b.tot_len = b.len ∧ b.view = some buf ∧ conn.Receive buf ≠ none) ∨
    (∃ conn b pcb buf, TCPRecvFn K tcpConns arg tpcb p err =
        ⟨[Event.Receive (K.GetConnKeyVal arg) buf, Event.pbuf_free b.addr], Outcome.ret K.ERR_OK⟩ ∧
        (err = K.ERR_OK ∨ err = K.ERR_ABRT) ∧ tcpConns.Load (K.GetConnKeyVal arg) = some conn ∧ p = some b ∧
        tpcb = some pcb ∧ b.tot_len = b.len ∧ b.view = some buf ∧ conn.Receive buf = none) := by
  by_cases herr : err = K.ERR_OK ∨ err = K.ERR_ABRT
  · rw [recv_run K tcpConns arg tpcb p err herr]
    cases hL : tcpConns.Load (K.GetConnKeyVal arg) with
    | none =>
      cases p with
      | none => simp [TCPRecvFn.deferred, TCPRecvFn.body, hL, herr]
      | some b => simp [TCPRecvFn.deferred, TCPRecvFn.body, hL, herr]
    | some conn =>
      cases p with
      | none =>
        cases hc : lwipCode conn.LocalDidClose with
        | none => simp [TCPRecvFn.deferred, TCPRecvFn.body, hL, hc, herr]
        | some c =>
          by_cases h1 : c = K.LWIP_ERR_ABRT
          · simp [TCPRecvFn.deferred, TCPRecvFn.body, hL, hc, h1, herr]
          · by_cases h2 : c = K.LWIP_ERR_OK
            · have h3 : K.LWIP_ERR_OK ≠ K.LWIP_ERR_ABRT := fun h => h1 (h2.trans h)
              simp [TCPRecvFn.deferred, TCPRecvFn.body, hL, hc, h2, h3, herr]
            · cases tpcb with
              | none =>
                simp [TCPRecvFn.deferred, TCPRecvFn.body, TCPRecvFn.data, hL, hc, h1, h2, herr]
              | some pcb =>
                simp [TCPRecvFn.deferred, TCPRecvFn.body, TCPRecvFn.data, hL, hc, h1, h2, herr]
      | some b =>
        cases tpcb with
        | none => simp [TCPRecvFn.deferred, TCPRecvFn.body, TCPRecvFn.data, hL, herr]
        | some pcb =>
          by_cases h1 : b.tot_len = b.len
          · cases hv : b.view with
            | none =>
              simp [TCPRecvFn.deferred, TCPRecvFn.body, TCPRecvFn.data, hL, h1, hv, herr]
              exact ⟨conn, b, rfl, rfl, rfl, h1, hv⟩
            | some buf =>
              cases h2 : conn.Receive buf with
              | none =>
                simp [TCPRecvFn.deferred, TCPRecvFn.body, TCPRecvFn.data, hL, h1, hv, h2, herr]
                exact ⟨conn, b, pcb, buf, ⟨rfl, rfl⟩, rfl, rfl, rfl, h1, hv, h2⟩
              | some e =>
                simp [TCPRecvFn.deferred, TCPRecvFn.body, TCPRecvFn.data, hL, h1, hv, h2, herr]
                exact ⟨conn, b, pcb, buf, ⟨rfl, rfl⟩, rfl, rfl, rfl, h1, hv, by simp [h2]⟩
          · simp [TCPRecvFn.deferred, TCPRecvFn.body, TCPRecvFn.data, hL, h1, herr]
  · refine Or.inl ?_
    have h1 : err ≠ K.ERR_OK := fun h => herr (Or.inl h)
    have h2 : err ≠ K.ERR_ABRT := fun h => herr (Or.inr h)
    exact ⟨recv_pass K tcpConns arg tpcb p err h1 h2, h1, h2⟩

/-! ## The claims -/

/-- C1, as stated, fails: with an incoming status that is neither `ERR_OK`
nor `ERR_ABRT` (here `ERR_MEM`, -1) and a non-null pbuf, `TCPRecvFn` returns
without any call of `pbuf_free`. -/
theorem TCPRecvFn_passthrough_keeps_pbuf :
    frees (TCPRecvFn lwip [(7, okConn)] 7 (some 1) (some getReq) (-1)).trace = [] ∧
    (TCPRecvFn lwip [(7, okConn)] 7 (some 1) (some getReq) (-1)).out = Outcome.ret (-1) := by
  decide

/-- C1, amended: with a non-null pbuf `p`, `TCPRecvFn` calls `pbuf_free(p)`
exactly once, and returns `ERR_OK` or `ERR_ABRT`, when the incoming status is
`ERR_OK` or `ERR_ABRT` and either the lookup misses or the registered
connection comes with a non-null pcb and a single-segment pbuf whose payload
is not NULL (whatever `Receive` answers); it does not call `pbuf_free` when
the status is another one (returned unchanged), nor when the run ends in
`log.Fatal` (nil pcb or chained pbuf on a registered connection). -/
theorem TCPRecvFn_pbuf_free_once (K : Consts) (tcpConns : Registry) (arg : Nat)
    (tpcb : Option Nat) (b : Pbuf) (err : Int) :
    (err ≠ K.ERR_OK → err ≠ K.ERR_ABRT →
      frees (TCPRecvFn K tcpConns arg tpcb (some b) err).trace = [] ∧
      (TCPRecvFn K tcpConns arg tpcb (some b) err).out = Outcome.ret err) ∧
    (err = K.ERR_OK ∨ err = K.ERR_ABRT →
      tcpConns.Load (K.GetConnKeyVal arg) = none ∨
        (tpcb ≠ none ∧ b.tot_len = b.len ∧ b.payload ≠ none) →
      frees (TCPRecvFn K tcpConns arg tpcb (some b) err).trace = [Event.pbuf_free b.addr] ∧
      ((TCPRecvFn K tcpConns arg tpcb (some b) err).out = Outcome.ret K.ERR_OK ∨
       (TCPRecvFn K tcpConns arg tpcb (some b) err).out = Outcome.ret K.ERR_ABRT)) ∧
    (err = K.ERR_OK ∨ err = K.ERR_ABRT →
      tcpConns.Load (K.GetConnKeyVal arg) ≠ none → tpcb = none ∨ b.tot_len ≠ b.len →
      frees (TCPRecvFn K tcpConns arg tpcb (some b) err).trace = [] ∧
      (TCPRecvFn K tcpConns arg tpcb (some b) err).out = Outcome.fatal) := by
  rcases recv_shape K tcpConns arg tpcb (some b) err with
    ⟨h, hc⟩ | ⟨h, hc⟩ | ⟨b', h, hc⟩ | ⟨conn', h, hc⟩ | ⟨conn', h, hc⟩ |
    ⟨conn', h, hc⟩ | ⟨conn', c, h, hc⟩ | ⟨conn', c, pcb', h, hc⟩ | ⟨conn', b', h, hc⟩ |
    ⟨conn', b', pcb', h, hc⟩ | ⟨conn', b', pcb', h, hc⟩ | ⟨conn', b', pcb', buf', h, hc⟩ |
    ⟨conn', b', pcb', buf', h, hc⟩
  all_goals
    rw [h]
    refine ⟨fun h1 h2 => ?_, fun h1 h2 => ?_, fun h1 h2 h3 => ?_⟩
    all_goals simp_all [frees, Event.isPbufFree, view_eq_none_iff]

/-- C1, amended, on the 18-byte request: lookup miss, `Receive` succeeding
and `Receive` failing each free the pbuf once; a chained pbuf is fatal. -/
theorem TCPRecvFn_pbuf_free_once_witness :
    (frees (TCPRecvFn lwip [] 7 (some 1) (some getReq) 0).trace =
        [Event.pbuf_free getReq.addr] ∧
      ((TCPRecvFn lwip [] 7 (some 1) (some getReq) 0).out = Outcome.ret lwip.ERR_OK ∨
       (TCPRecvFn lwip [] 7 (some 1) (some getReq) 0).out = Outcome.ret lwip.ERR_ABRT)) ∧
    (frees (TCPRecvFn lwip [(7, abrtConn)] 7 (some 1) (some getReq) (-13)).trace =
        [Event.pbuf_free getReq.addr] ∧
      ((TCPRecvFn lwip [(7, abrtConn)] 7 (some 1) (some getReq) (-13)).out =
          Outcome.ret lwip.ERR_OK ∨
       (TCPRecvFn lwip [(7, abrtConn)] 7 (some 1) (some getReq) (-13)).out =
          Outcome.ret lwip.ERR_ABRT)) ∧
    (frees (TCPRecvFn lwip [(7, okConn)] 7 (some 1) (some getReq) (-6)).trace = [] ∧
      (TCPRecvFn lwip [(7, okConn)] 7 (some 1) (some getReq) (-6)).out = Outcome.ret (-6)) ∧
    (frees (TCPRecvFn lwip [(7, okConn)] 7 (some 1) (some chained) 0).trace = [] ∧
      (TCPRecvFn lwip [(7, okConn)] 7 (some 1) (some chained) 0).out = Outcome.fatal) :=
  ⟨(TCPRecvFn_pbuf_free_once lwip [] 7 (some 1) getReq 0).2.1
      (Or.inl (by decide)) (Or.inl rfl),
   (TCPRecvFn_pbuf_free_once lwip [(7, abrtConn)] 7 (some 1) getReq (-13)).2.1
      (Or.inr (by decide)) (Or.inr ⟨by decide, by decide, by simp [getReq]⟩),
   (TCPRecvFn_pbuf_free_once lwip [(7, okConn)] 7 (some 1) getReq (-6)).1
      (by decide) (by decide),
   (TCPRecvFn_pbuf_free_once lwip [(7, okConn)] 7 (some 1) chained 0).2.2
      (Or.inl (by decide)) (by simp [Registry.Load, lwip]) (Or.inr (by decide))⟩

/-- C2, as stated, fails: on a registry miss `TCPErrFn`, which is handed no
pcb, calls nothing at all, and `TCPRecvFn` with a status that is neither
`ERR_OK` nor `ERR_ABRT` returns that status without a call of `tcp_abort`. -/
theorem orphan_without_abort :
    Registry.Load [] (lwip.GetConnKeyVal 7) = none ∧
    aborts (TCPErrFn lwip [] 7 (-13)) = [] ∧
    aborts (TCPRecvFn lwip [] 7 (some 1) (some getReq) (-1)).trace = [] ∧
    (TCPRecvFn lwip [] 7 (some 1) (some getReq) (-1)).out ≠ Outcome.ret lwip.ERR_ABRT := by
  refine ⟨rfl, ?_, ?_, ?_⟩ <;> decide

/-- C2, amended: when the key is not in the registry, `TCPSentFn`, and
`TCPRecvFn` with status `ERR_OK` or `ERR_ABRT`, call `tcp_abort` once, on the
pcb they were handed, and return `ERR_ABRT`; `TCPRecvFn` with another status
returns it and `TCPErrFn` returns without a call of `tcp_abort`; and none of
`TCPRecvFn`, `TCPSentFn`, `TCPErrFn`, `TCPPollFn` calls a `Connection`
method. -/
theorem orphan_defense (K : Consts) (tcpConns : Registry) (arg : Nat)
    (hmiss : tcpConns.Load (K.GetConnKeyVal arg) = none) :
    (∀ (tpcb : Option Nat) (len : U16),
      aborts (TCPSentFn K tcpConns arg tpcb len).trace = [Event.tcp_abort tpcb] ∧
      (TCPSentFn K tcpConns arg tpcb len).out = Outcome.ret K.ERR_ABRT ∧
      connCalls (TCPSentFn K tcpConns arg tpcb len).trace = []) ∧
    (∀ (tpcb : Option Nat) (p : Option Pbuf) (err : Int),
      (err = K.ERR_OK ∨ err = K.ERR_ABRT →
        aborts (TCPRecvFn K tcpConns arg tpcb p err).trace = [Event.tcp_abort tpcb] ∧
        (TCPRecvFn K tcpConns arg tpcb p err).out = Outcome.ret K.ERR_ABRT) ∧
      (err ≠ K.ERR_OK → err ≠ K.ERR_ABRT →
        aborts (TCPRecvFn K tcpConns arg tpcb p err).trace = [] ∧
        (TCPRecvFn K tcpConns arg tpcb p err).out = Outcome.ret err) ∧
      connCalls (TCPRecvFn K tcpConns arg tpcb p err).trace = []) ∧
    (∀ err : Int, TCPErrFn K tcpConns arg err = []) ∧
    (∀ tpcb : Option Nat, connCalls (TCPPollFn K tcpConns arg tpcb).trace = []) := by
  refine ⟨fun tpcb len => ?_, fun tpcb p err => ?_, fun err => ?_, fun tpcb => ?_⟩
  · simp [TCPSentFn, hmiss, aborts, connCalls, Event.isTcpAbort, Event.isConnCall]
  · rcases recv_shape K tcpConns arg tpcb p err with
    ⟨h, hc⟩ | ⟨h, hc⟩ | ⟨b, h, hc⟩ | ⟨conn, h, hc⟩ | ⟨conn, h, hc⟩ |
    ⟨conn, h, hc⟩ | ⟨conn, c, h, hc⟩ | ⟨conn, c, pcb, h, hc⟩ | ⟨conn, b, h, hc⟩ |
    ⟨conn, b, pcb, h, hc⟩ | ⟨conn, b, pcb, h, hc⟩ | ⟨conn, b, pcb, buf, h, hc⟩ |
    ⟨conn, b, pcb, buf, h, hc⟩
    all_goals
      rw [h]
      refine ⟨fun h1 => ?_, fun h1 h2 => ?_, ?_⟩
      all_goals simp_all [aborts, connCalls, Event.isTcpAbort, Event.isConnCall]
  · simp [TCPErrFn, hmiss]
  · simp [TCPPollFn, hmiss, connCalls]

/-- C2, amended, on the empty registry. -/
theorem orphan_defense_witness :
    Registry.Load [] (lwip.GetConnKeyVal 7) = none ∧
    (aborts (TCPSentFn lwip [] 7 (some 1) 18).trace = [Event.tcp_abort (some 1)] ∧
      (TCPSentFn lwip [] 7 (some 1) 18).out = Outcome.ret lwip.ERR_ABRT ∧
      connCalls (TCPSentFn lwip [] 7 (some 1) 18).trace = []) ∧
    (aborts (TCPRecvFn lwip [] 7 (some 1) (some getReq) 0).trace = [Event.tcp_abort (some 1)] ∧
      (TCPRecvFn lwip [] 7 (some 1) (some getReq) 0).out = Outcome.ret lwip.ERR_ABRT) ∧
    TCPErrFn lwip [] 7 (-14) = [] ∧
    connCalls (TCPPollFn lwip [] 7 (some 1)).trace = [] :=
  ⟨rfl,
   (orphan_defense lwip [] 7 rfl).1 (some 1) 18,
   ((orphan_defense lwip [] 7 rfl).2.1 (some 1) (some getReq) 0).1 (Or.inl (by decide)),
   (orphan_defense lwip [] 7 rfl).2.2.1 (-14),
   (orphan_defense lwip [] 7 rfl).2.2.2 (some 1)⟩

/-- C3, as stated, fails: with a null pbuf and a key that is not in the
registry, `LocalDidClose` is not called (the callback aborts the pcb). -/
theorem TCPRecvFn_null_pbuf_miss_no_close :
    closes (TCPRecvFn lwip [] 7 (some 1) none 0).trace = [] ∧
    (TCPRecvFn lwip [] 7 (some 1) none 0).trace =
      [Event.log "connection does not exists", Event.tcp_abort (some 1)] := by
  decide

/-- C3, amended: with a null pbuf `TCPRecvFn` never calls `pbuf_free`; it
calls `LocalDidClose` exactly once when the status is `ERR_OK` or `ERR_ABRT`
and the connection is registered, and not at all when the lookup misses or the
status is another one. -/
theorem TCPRecvFn_null_pbuf (K : Consts) (tcpConns : Registry) (arg : Nat)
    (tpcb : Option Nat) (err : Int) :
    frees (TCPRecvFn K tcpConns arg tpcb none err).trace = [] ∧
    (err = K.ERR_OK ∨ err = K.ERR_ABRT → tcpConns.Load (K.GetConnKeyVal arg) ≠ none →
      closes (TCPRecvFn K tcpConns arg tpcb none err).trace =
        [Event.LocalDidClose (K.GetConnKeyVal arg)]) ∧
    (tcpConns.Load (K.GetConnKeyVal arg) = none →
      closes (TCPRecvFn K tcpConns arg tpcb none err).trace = []) ∧
    (err ≠ K.ERR_OK → err ≠ K.ERR_ABRT →
      closes (TCPRecvFn K tcpConns arg tpcb none err).trace = []) := by
  rcases recv_shape K tcpConns arg tpcb none err with
    ⟨h, hc⟩ | ⟨h, hc⟩ | ⟨b, h, hc⟩ | ⟨conn, h, hc⟩ | ⟨conn, h, hc⟩ |
    ⟨conn, h, hc⟩ | ⟨conn, c, h, hc⟩ | ⟨conn, c, pcb, h, hc⟩ | ⟨conn, b, h, hc⟩ |
    ⟨conn, b, pcb, h, hc⟩ | ⟨conn, b, pcb, h, hc⟩ | ⟨conn, b, pcb, buf, h, hc⟩ |
    ⟨conn, b, pcb, buf, h, hc⟩
  all_goals
    rw [h]
    refine ⟨?_, fun h1 h2 => ?_, fun h1 => ?_, fun h1 h2 => ?_⟩
    all_goals simp_all [frees, closes, Event.isPbufFree, Event.isLocalDidClose]

/-- C3, amended, on a registered connection, a miss and a passed-through
status. -/
theorem TCPRecvFn_null_pbuf_witness :
    closes (TCPRecvFn lwip [(7, okConn)] 7 (some 1) none 0).trace =
      [Event.LocalDidClose (lwip.GetConnKeyVal 7)] ∧
    closes (TCPRecvFn lwip [(7, okConn)] 7 (some 1) none (-13)).trace =
      [Event.LocalDidClose (lwip.GetConnKeyVal 7)] ∧
    closes (TCPRecvFn lwip [(8, okConn)] 7 (some 1) none 0).trace = [] ∧
    closes (TCPRecvFn lwip [(7, okConn)] 7 (some 1) none (-1)).trace = [] :=
  ⟨(TCPRecvFn_null_pbuf lwip [(7, okConn)] 7 (some 1) 0).2.1 (Or.inl (by decide))
      (by simp [Registry.Load, lwip]),
   (TCPRecvFn_null_pbuf lwip [(7, okConn)] 7 (some 1) (-13)).2.1 (Or.inr (by decide))
      (by simp [Registry.Load, lwip]),
   (TCPRecvFn_null_pbuf lwip [(8, okConn)] 7 (some 1) 0).2.2.1 rfl,
   (TCPRecvFn_null_pbuf lwip [(7, okConn)] 7 (some 1) (-1)).2.2.2 (by decide) (by decide)⟩

/-- C4: with status `ERR_OK` or `ERR_ABRT`, a registered connection, a
non-null pcb and a non-null single-segment pbuf: if `Receive`, called by the
callback on a buffer, returns a failure, then `tcp_abort(tpcb)` is called
exactly once and the callback returns `ERR_ABRT`; if it returns success, then
`tcp_abort` is not called and the callback returns `ERR_OK`. `Receive` is
called, once and on the view of the pbuf, whenever the slice expression
yields a view. -/
theorem TCPRecvFn_receive_result (K : Consts) (tcpConns : Registry) (arg : Nat) (pcb : Nat)
    (b : Pbuf) (err : Int) (conn : Connection)
    (herr : err = K.ERR_OK ∨ err = K.ERR_ABRT)
    (hreg : tcpConns.Load (K.GetConnKeyVal arg) = some conn)
    (hseg : b.tot_len = b.len) :
    (∀ (key : Nat) (buf : Slice),
      Event.Receive key buf ∈ (TCPRecvFn K tcpConns arg (some pcb) (some b) err).trace →
      (conn.Receive buf ≠ none →
        aborts (TCPRecvFn K tcpConns arg (some pcb) (some b) err).trace =
          [Event.tcp_abort (some pcb)] ∧
        (TCPRecvFn K tcpConns arg (some pcb) (some b) err).out = Outcome.ret K.ERR_ABRT) ∧
      (conn.Receive buf = none →
        aborts (TCPRecvFn K tcpConns arg (some pcb) (some b) err).trace = [] ∧
        (TCPRecvFn K tcpConns arg (some pcb) (some b) err).out = Outcome.ret K.ERR_OK)) ∧
    (∀ buf : Slice, b.view = some buf →
      receives (TCPRecvFn K tcpConns arg (some pcb) (some b) err).trace =
        [Event.Receive (K.GetConnKeyVal arg) buf]) := by
  rcases recv_shape K tcpConns arg (some pcb) (some b) err with
    ⟨h, hc⟩ | ⟨h, hc⟩ | ⟨b', h, hc⟩ | ⟨conn', h, hc⟩ | ⟨conn', h, hc⟩ |
    ⟨conn', h, hc⟩ | ⟨conn', c, h, hc⟩ | ⟨conn', c, pcb', h, hc⟩ | ⟨conn', b', h, hc⟩ |
    ⟨conn', b', pcb', h, hc⟩ | ⟨conn', b', pcb', h, hc⟩ | ⟨conn', b', pcb', buf', h, hc⟩ |
    ⟨conn', b', pcb', buf', h, hc⟩
  all_goals
    rw [h]
    refine ⟨fun key buf hmem => ⟨fun h1 => ?_, fun h1 => ?_⟩, fun buf hv => ?_⟩
    all_goals simp_all [receives, aborts, Event.isReceive, Event.isTcpAbort]

/-- C4 on the 18-byte request, with `Receive` failing and succeeding. -/
theorem TCPRecvFn_receive_result_witness :
    (aborts (TCPRecvFn lwip [(7, abrtConn)] 7 (some 1) (some getReq) 0).trace =
        [Event.tcp_abort (some 1)] ∧
      (TCPRecvFn lwip [(7, abrtConn)] 7 (some 1) (some getReq) 0).out =
        Outcome.ret lwip.ERR_ABRT) ∧
    (aborts (TCPRecvFn lwip [(7, okConn)] 7 (some 1) (some getReq) (-13)).trace = [] ∧
      (TCPRecvFn lwip [(7, okConn)] 7 (some 1) (some getReq) (-13)).out =
        Outcome.ret lwip.ERR_OK) ∧
    receives (TCPRecvFn lwip [(7, okConn)] 7 (some 1) (some getReq) 0).trace =
      [Event.Receive (lwip.GetConnKeyVal 7) ⟨getBytes, 18⟩] :=
  ⟨((TCPRecvFn_receive_result lwip [(7, abrtConn)] 7 1 getReq 0 abrtConn
      (Or.inl (by decide)) rfl (by decide)).1 7 ⟨getBytes, 18⟩ (by decide)).1 (by decide),
   ((TCPRecvFn_receive_result lwip [(7, okConn)] 7 1 getReq (-13) okConn
      (Or.inr (by decide)) rfl (by decide)).1 7 ⟨getBytes, 18⟩ (by decide)).2 rfl,
   (TCPRecvFn_receive_result lwip [(7, okConn)] 7 1 getReq 0 okConn
      (Or.inl (by decide)) rfl (by decide)).2 ⟨getBytes, 18⟩ (by decide)⟩

/-- C5, as stated, fails: `Sent` reports a failure code other than
`LWIP_ERR_ABRT` (here 2) and `TCPSentFn` returns `ERR_OK`, not `ERR_ABRT`. -/
theorem TCPSentFn_failure_code_continues :
    connErrConn.Sent 18 ≠ some (GoError.lwipError lwip.LWIP_ERR_OK) ∧
    TCPSentFn lwip [(7, connErrConn)] 7 (some 1) 18 =
      ⟨[Event.Sent 7 18], Outcome.ret lwip.ERR_OK⟩ ∧
    lwip.ERR_OK ≠ lwip.ERR_ABRT := by
  decide

/-- C5, amended: on a registered connection whose `Sent` returns an
`*lwipError`, `TCPSentFn` calls `Sent` once with the acknowledged length and
nothing else, returns `ERR_ABRT` when the code is `LWIP_ERR_ABRT` and returns
`ERR_OK` for every other code, failure codes included. -/
theorem TCPSentFn_result (K : Consts) (tcpConns : Registry) (arg : Nat) (tpcb : Option Nat)
    (len : U16) (conn : Connection) (c : Int)
    (hreg : tcpConns.Load (K.GetConnKeyVal arg) = some conn)
    (hres : conn.Sent len = some (GoError.lwipError c)) :
    (TCPSentFn K tcpConns arg tpcb len).trace = [Event.Sent (K.GetConnKeyVal arg) len] ∧
    (c = K.LWIP_ERR_ABRT → (TCPSentFn K tcpConns arg tpcb len).out = Outcome.ret K.ERR_ABRT) ∧
    (c ≠ K.LWIP_ERR_ABRT → (TCPSentFn K tcpConns arg tpcb len).out = Outcome.ret K.ERR_OK) := by
  by_cases h : c = K.LWIP_ERR_ABRT <;> simp [TCPSentFn, hreg, hres, lwipCode, h]

/-- C5, amended, on the abort code, the ok code and another failure code. -/
theorem TCPSentFn_result_witness :
    (TCPSentFn lwip [(7, abrtConn)] 7 (some 1) 18).out = Outcome.ret lwip.ERR_ABRT ∧
    (TCPSentFn lwip [(7, okConn)] 7 (some 1) 18).out = Outcome.ret lwip.ERR_OK ∧
    (TCPSentFn lwip [(7, connErrConn)] 7 (some 1) 18).out = Outcome.ret lwip.ERR_OK :=
  ⟨(TCPSentFn_result lwip [(7, abrtConn)] 7 (some 1) 18 abrtConn 1 rfl rfl).2.1 (by decide),
   (TCPSentFn_result lwip [(7, okConn)] 7 (some 1) 18 okConn 0 rfl rfl).2.2 (by decide),
   (TCPSentFn_result lwip [(7, connErrConn)] 7 (some 1) 18 connErrConn 2 rfl rfl).2.2
      (by decide)⟩

/-- C6, the code at the failing input: with a null pbuf, a non-null pcb and a
registered connection whose `LocalDidClose` returns a code that is neither
`LWIP_ERR_ABRT` nor `LWIP_ERR_OK`, `TCPRecvFn` leaves the close branch without
returning and reads `p.tot_len` through the nil pointer: the run ends in a
panic, not in a returned status. -/
theorem TCPRecvFn_null_pbuf_falls_through :
    TCPRecvFn lwip [(7, connErrConn)] 7 (some 1) none 0 =
      ⟨[Event.LocalDidClose 7], Outcome.panic⟩ ∧
    TCPRecvFn.data lwip connErrConn 7 (some 1) none = ⟨[], Outcome.panic⟩ := by
  decide

/-- C7, as stated, fails: a chained pbuf (`tot_len != len`) whose key is not
in the registry does not halt the callback; it returns `ERR_ABRT`. -/
theorem TCPRecvFn_chained_miss_returns :
    chained.tot_len ≠ chained.len ∧
    TCPRecvFn lwip [] 7 (some 1) (some chained) 0 =
      ⟨[Event.log "connection does not exists", Event.tcp_abort (some 1),
        Event.pbuf_free chained.addr], Outcome.ret lwip.ERR_ABRT⟩ := by
  decide

/-- C7, amended: whenever `TCPRecvFn` calls `Receive`, it does so exactly
once, the pbuf is single-segment, its payload is not NULL, and the view passed
has length and capacity `p.tot_len` and holds the first `p.tot_len` bytes of
`p.payload`; when `p.tot_len != p.len`, `Receive` is not called at all, and
the callback halts in `log.Fatal` if the status is `ERR_OK` or `ERR_ABRT` and
the connection is registered. -/
theorem TCPRecvFn_receive_view (K : Consts) (tcpConns : Registry) (arg : Nat)
    (tpcb : Option Nat) (p : Option Pbuf) (err : Int) :
    (∀ (key : Nat) (buf : Slice),
      Event.Receive key buf ∈ (TCPRecvFn K tcpConns arg tpcb p err).trace →
      receives (TCPRecvFn K tcpConns arg tpcb p err).trace = [Event.Receive key buf] ∧
      ∃ b mem, p = some b ∧ b.payload = some mem ∧ b.tot_len = b.len ∧
        buf.data.length = b.tot_len.val ∧ buf.cap = b.tot_len.val ∧
        ∀ i, i < b.tot_len.val → buf.data[i]? = some (mem i)) ∧
    (∀ b, p = some b → b.tot_len ≠ b.len →
      receives (TCPRecvFn K tcpConns arg tpcb p err).trace = [] ∧
      (err = K.ERR_OK ∨ err = K.ERR_ABRT → tcpConns.Load (K.GetConnKeyVal arg) ≠ none →
        (TCPRecvFn K tcpConns arg tpcb p err).out = Outcome.fatal)) := by
  rcases recv_shape K tcpConns arg tpcb p err with
    ⟨h, hc⟩ | ⟨h, hc⟩ | ⟨b, h, hc⟩ | ⟨conn, h, hc⟩ | ⟨conn, h, hc⟩ |
    ⟨conn, h, hc⟩ | ⟨conn, c, h, hc⟩ | ⟨conn, c, pcb, h, hc⟩ | ⟨conn, b, h, hc⟩ |
    ⟨conn, b, pcb, h, hc⟩ | ⟨conn, b, pcb, h, hc⟩ | ⟨conn, b, pcb, buf, h, hc⟩ |
    ⟨conn, b, pcb, buf, h, hc⟩
  all_goals
    rw [h]
    refine ⟨fun key buf' hmem => ?_, fun b' hp hne => ?_⟩
  all_goals first
    | (simp_all [receives, Event.isReceive]; done)
    | (obtain ⟨mem, hm, hl, hcp, hg⟩ := view_spec b buf hc.2.2.2.2.2.1
       simp_all [receives, Event.isReceive])

/-- C7, amended, on the 18-byte request: `Receive` gets exactly the 18 bytes;
a chained pbuf on a registered connection is fatal, without `Receive`. -/
theorem TCPRecvFn_receive_view_witness :
    (receives (TCPRecvFn lwip [(7, okConn)] 7 (some 1) (some getReq) 0).trace =
        [Event.Receive 7 ⟨getBytes, 18⟩] ∧
      ∃ b mem, some getReq = some b ∧ b.payload = some mem ∧ b.tot_len = b.len ∧
        (Slice.mk getBytes 18).data.length = b.tot_len.val ∧
        (Slice.mk getBytes 18).cap = b.tot_len.val ∧
        ∀ i, i < b.tot_len.val → (Slice.mk getBytes 18).data[i]? = some (mem i)) ∧
    (receives (TCPRecvFn lwip [(7, okConn)] 7 (some 1) (some chained) 0).trace = [] ∧
      (TCPRecvFn lwip [(7, okConn)] 7 (some 1) (some chained) 0).out = Outcome.fatal) :=
  ⟨(TCPRecvFn_receive_view lwip [(7, okConn)] 7 (some 1) (some getReq) 0).1 7
      ⟨getBytes, 18⟩ (by decide),
   ⟨((TCPRecvFn_receive_view lwip [(7, okConn)] 7 (some 1) (some chained) 0).2 chained rfl
      (by decide)).1,
    ((TCPRecvFn_receive_view lwip [(7, okConn)] 7 (some 1) (some chained) 0).2 chained rfl
      (by decide)).2 (Or.inl (by decide)) (by simp [Registry.Load, lwip])⟩⟩

/-- C8, as stated, fails: with incoming status `ERR_OK`, a nil `newpcb` and
a failing `NewTCPConnection`, `TCPAcceptFn` does not return `ERR_OK`: the log
line of the failure branch reads `newpcb.local_ip` and panics. -/
theorem TCPAcceptFn_nil_pcb_failure_panics :
    TCPAcceptFn lwip newConnFail 7 none lwip.ERR_OK =
      ⟨[Event.NewTCPConnection none], Outcome.panic⟩ := by
  decide

/-- C8, amended: with incoming status `ERR_OK`, `TCPAcceptFn` calls
`NewTCPConnection` and returns `ERR_OK` when the construction succeeds, and
also when it fails on a non-nil `newpcb`; with any other incoming status it
returns that status unchanged and calls nothing. -/
theorem TCPAcceptFn_status (K : Consts)
    (NewTCPConnection : Option Nat → Except GoError Connection)
    (arg : Nat) (newpcb : Option Nat) (err : Int) :
    (err = K.ERR_OK →
      (newpcb ≠ none ∨ ∃ conn, NewTCPConnection newpcb = Except.ok conn) →
      (TCPAcceptFn K NewTCPConnection arg newpcb err).out = Outcome.ret K.ERR_OK ∧
      Event.NewTCPConnection newpcb ∈ (TCPAcceptFn K NewTCPConnection arg newpcb err).trace) ∧
    (err ≠ K.ERR_OK →
      TCPAcceptFn K NewTCPConnection arg newpcb err = ⟨[], Outcome.ret err⟩) := by
  refine ⟨fun h hp => ?_, fun h => ?_⟩
  · cases hN : NewTCPConnection newpcb with
    | ok conn => simp [TCPAcceptFn, h, hN]
    | error e =>
      cases newpcb with
      | none => simp [hN] at hp
      | some pcb => simp [TCPAcceptFn, h, hN]
  · simp [TCPAcceptFn, h]

/-- C8, amended, on a failing and a succeeding constructor with a pcb, on a
succeeding constructor without one, and on `ERR_MEM` with a nil pcb. -/
theorem TCPAcceptFn_status_witness :
    (TCPAcceptFn lwip newConnFail 7 (some 1) 0).out = Outcome.ret lwip.ERR_OK ∧
    (TCPAcceptFn lwip newConnOk 7 (some 1) 0).out = Outcome.ret lwip.ERR_OK ∧
    (TCPAcceptFn lwip newConnOk 7 none 0).out = Outcome.ret lwip.ERR_OK ∧
    TCPAcceptFn lwip newConnOk 7 none (-1) = ⟨[], Outcome.ret (-1)⟩ :=
  ⟨((TCPAcceptFn_status lwip newConnFail 7 (some 1) 0).1 (by decide)
      (Or.inl (by decide))).1,
   ((TCPAcceptFn_status lwip newConnOk 7 (some 1) 0).1 (by decide)
      (Or.inl (by decide))).1,
   ((TCPAcceptFn_status lwip newConnOk 7 none 0).1 (by decide)
      (Or.inr ⟨okConn, rfl⟩)).1,
   (TCPAcceptFn_status lwip newConnOk 7 none (-1)).2 (by decide)⟩

/-- C9, the code at the failing input: with status `ERR_OK`, a registered
connection, a non-null pcb and an empty pbuf whose `payload` is NULL, the
slice expression panics before `Receive`, and the deferred function frees the
pbuf while the panic unwinds: `pbuf_free` is called in a run that returns no
status. -/
theorem TCPRecvFn_null_payload_frees_and_panics :
    TCPRecvFn lwip [(7, okConn)] 7 (some 1) (some nullPayload) lwip.ERR_OK =
      ⟨[Event.pbuf_free nullPayload.addr], Outcome.panic⟩ ∧
    frees (TCPRecvFn lwip [(7, okConn)] 7 (some 1) (some nullPayload) lwip.ERR_OK).trace ≠
      [] := by
  decide

/-- C10: each of the five callbacks calls `tcp_abort` at most once, only on
the pcb it was handed, and whenever it calls `tcp_abort` it returns
`ERR_ABRT`. `TCPAcceptFn` and `TCPErrFn` (which is handed no pcb) do not
call it. -/
theorem tcp_abort_at_most_once (K : Consts) (tcpConns : Registry)
    (NewTCPConnection : Option Nat → Except GoError Connection)
    (arg : Nat) (tpcb : Option Nat) (p : Option Pbuf) (len : U16) (err : Int) :
    aborts (TCPAcceptFn K NewTCPConnection arg tpcb err).trace = [] ∧
    (aborts (TCPRecvFn K tcpConns arg tpcb p err).trace = [] ∨
      (aborts (TCPRecvFn K tcpConns arg tpcb p err).trace = [Event.tcp_abort tpcb] ∧
        (TCPRecvFn K tcpConns arg tpcb p err).out = Outcome.ret K.ERR_ABRT)) ∧
    (aborts (TCPSentFn K tcpConns arg tpcb len).trace = [] ∨
      (aborts (TCPSentFn K tcpConns arg tpcb len).trace = [Event.tcp_abort tpcb] ∧
        (TCPSentFn K tcpConns arg tpcb len).out = Outcome.ret K.ERR_ABRT)) ∧
    aborts (TCPErrFn K tcpConns arg err) = [] ∧
    (aborts (TCPPollFn K tcpConns arg tpcb).trace = [] ∨
      (aborts (TCPPollFn K tcpConns arg tpcb).trace = [Event.tcp_abort tpcb] ∧
        (TCPPollFn K tcpConns arg tpcb).out = Outcome.ret K.ERR_ABRT)) := by
  refine ⟨?_, ?_, ?_, ?_, ?_⟩
  · unfold TCPAcceptFn
    split
    · simp [aborts]
    · split
      · split <;> simp [aborts, Event.isTcpAbort]
      · simp [aborts, Event.isTcpAbort]
  · rcases recv_shape K tcpConns arg tpcb p err with
    ⟨h, hc⟩ | ⟨h, hc⟩ | ⟨b, h, hc⟩ | ⟨conn, h, hc⟩ | ⟨conn, h, hc⟩ |
    ⟨conn, h, hc⟩ | ⟨conn, c, h, hc⟩ | ⟨conn, c, pcb, h, hc⟩ | ⟨conn, b, h, hc⟩ |
    ⟨conn, b, pcb, h, hc⟩ | ⟨conn, b, pcb, h, hc⟩ | ⟨conn, b, pcb, buf, h, hc⟩ |
    ⟨conn, b, pcb, buf, h, hc⟩
    all_goals
      rw [h]
      simp [aborts, Event.isTcpAbort]
  · unfold TCPSentFn
    split
    · split
      · simp [aborts, Event.isTcpAbort]
      · split <;> simp [aborts, Event.isTcpAbort]
    · simp [aborts, Event.isTcpAbort]
  · unfold TCPErrFn
    split
    · split
      · simp [aborts, Event.isTcpAbort]
      · split <;> simp [aborts, Event.isTcpAbort]
    · simp [aborts]
  · refine Or.inl ?_
    unfold TCPPollFn
    split
    · split
      · simp [aborts, Event.isTcpAbort]
      · split
        · simp [aborts, Event.isTcpAbort]
        · split <;> simp [aborts, Event.isTcpAbort]
    · simp [aborts]

end Tun2socks
